import Mathlib

/-!
# Verification of the CODESYNC real-time synchronization core

Shallow embedding of the collaborative-editor synchronization subsystem:

* `YjsDoc` — the per-document state (`YjsDocument` dataclass, which appears
  twice in the repository with identical update-log code and differing
  client-handle types: `src/codesync/yjs_server.py` holds websocket handles,
  `src/fastapi_backend/app/services/yjs_manager.py` holds string client ids);
* the sync-protocol handlers of `yjs_server.py` (`YjsServer`);
* the FastAPI websocket router handlers
  (`src/fastapi_backend/app/routers/websocket.py`);
* the document registry cleanup of `YjsDocumentManager`;
* the debounced analysis scheduler of the editor websocket.

Bytes are modelled as `List Nat` (one entry per byte); websocket handles and
CPython object ids are modelled as `Nat`.
-/

/-- Message type bytes of the y-websocket protocol (both source files). -/
def MESSAGE_SYNC : Nat := 0

def MESSAGE_AWARENESS : Nat := 1

def MESSAGE_AUTH : Nat := 2

def MESSAGE_QUERY_AWARENESS : Nat := 3

/-- Sync sub-type bytes. -/
def SYNC_STEP1 : Nat := 0

def SYNC_STEP2 : Nat := 1

def SYNC_UPDATE : Nat := 2

/-- The `YjsDocument` dataclass. The two copies in the repository differ only
in the element type of `clients` (websocket handles in `yjs_server.py`,
string ids in `yjs_manager.py`), so the client-handle type is a parameter.
`awareness_states : Dict[int, bytes]` is an association list with unique keys
in any reachable state. -/
structure YjsDoc (C : Type) where
  doc_id : String
  updates : List (List Nat)
  awareness_states : List (Nat × List Nat)
  clients : List C
deriving Repr

/-- A freshly created document: `YjsDocument(doc_id=doc_id)` with all
default-factory fields empty. -/
def freshDoc (C : Type) (docId : String) : YjsDoc C :=
  { doc_id := docId, updates := [], awareness_states := [], clients := [] }

namespace YjsDoc

variable {C : Type}

/-- `YjsDocument.apply_update`: `self.updates.append(update)`. -/
def apply_update (d : YjsDoc C) (update : List Nat) : YjsDoc C :=
  { d with updates := d.updates ++ [update] }

/-- `YjsDocument.get_encoded_state`: empty bytes when there are no updates,
otherwise `b''.join(self.updates)`. -/
def get_encoded_state (d : YjsDoc C) : List Nat :=
  if d.updates = [] then [] else d.updates.flatten

/-- `YjsDocument.get_update_count`: `len(self.updates)`. -/
def get_update_count (d : YjsDoc C) : Nat :=
  d.updates.length

/-- `YjsDocument.gc_updates(keep_last)`: when more than `keep_last` updates
are stored, replace them with the single merged blob `b''.join(self.updates)`. -/
def gc_updates (d : YjsDoc C) (keep_last : Nat) : YjsDoc C :=
  if d.updates.length > keep_last then
    { d with updates := [d.updates.flatten] }
  else d

/-- `YjsDocument.remove_awareness` (yjs_manager.py):
`self.awareness_states.pop(client_id, None)`. -/
def remove_awareness (d : YjsDoc C) (client_id : Nat) : YjsDoc C :=
  { d with awareness_states := d.awareness_states.filter (fun p => p.1 ≠ client_id) }

/-- `YjsDocument.set_awareness` (yjs_manager.py):
`self.awareness_states[client_id] = state`. -/
def set_awareness (d : YjsDoc C) (client_id : Nat) (state : List Nat) : YjsDoc C :=
  { d with awareness_states :=
      (d.awareness_states.filter (fun p => p.1 ≠ client_id)) ++ [(client_id, state)] }

end YjsDoc

/-- Applying a whole sequence of update blobs to a document, in order. -/
def applyAll {C : Type} (d : YjsDoc C) (blobs : List (List Nat)) : YjsDoc C :=
  blobs.foldl YjsDoc.apply_update d

-- Basic lemmas about the update log

theorem get_encoded_state_eq_join {C : Type} (d : YjsDoc C) :
    d.get_encoded_state = d.updates.flatten := by
  unfold YjsDoc.get_encoded_state
  split
  · simp [*]
  · rfl

theorem applyAll_updates {C : Type} (d : YjsDoc C) (blobs : List (List Nat)) :
    (applyAll d blobs).updates = d.updates ++ blobs := by
  induction blobs generalizing d with
  | nil => simp [applyAll]
  | cons b bs ih =>
      simp only [applyAll, List.foldl_cons] at *
      rw [ih]
      simp [YjsDoc.apply_update]

theorem applyAll_doc_id {C : Type} (d : YjsDoc C) (blobs : List (List Nat)) :
    (applyAll d blobs).doc_id = d.doc_id := by
  induction blobs generalizing d with
  | nil => rfl
  | cons b bs ih =>
      simp only [applyAll, List.foldl_cons] at *
      rw [ih]
      rfl

theorem applyAll_clients {C : Type} (d : YjsDoc C) (blobs : List (List Nat)) :
    (applyAll d blobs).clients = d.clients := by
  induction blobs generalizing d with
  | nil => rfl
  | cons b bs ih =>
      simp only [applyAll, List.foldl_cons] at *
      rw [ih]
      rfl

theorem gc_preserves_encoded_state {C : Type} (d : YjsDoc C) (k : Nat) :
    (d.gc_updates k).get_encoded_state = d.get_encoded_state := by
  rw [get_encoded_state_eq_join, get_encoded_state_eq_join]
  unfold YjsDoc.gc_updates
  split
  · simp
  · rfl

/-- **C1.** On a fresh document, `get_encoded_state` after applying any
sequence of blobs is their byte-wise concatenation in insertion order; an
empty sequence yields empty bytes (not an error); `gc_updates` never changes
the encoded state; and when the update count exceeds the threshold,
`gc_updates` replaces the stored sequence with the single merged blob equal
to the full concatenation, so only the count changes, never the bytes. -/
theorem C1_update_log_encoding (docId : String) (blobs : List (List Nat))
    (d : YjsDoc Nat) (k : Nat) :
    (applyAll (freshDoc Nat docId) blobs).get_encoded_state = blobs.flatten
    ∧ (freshDoc Nat docId).get_encoded_state = []
    ∧ (d.gc_updates k).get_encoded_state = d.get_encoded_state
    ∧ (d.get_update_count > k →
        (d.gc_updates k).updates = [d.get_encoded_state]
        ∧ (d.gc_updates k).get_update_count = 1) := by
  refine ⟨?_, rfl, gc_preserves_encoded_state d k, ?_⟩
  · rw [get_encoded_state_eq_join, applyAll_updates]
    simp [freshDoc]
  · intro hk
    have hne : d.updates ≠ [] := by
      intro h
      rw [YjsDoc.get_update_count, h] at hk
      simp at hk
    have hgc : d.gc_updates k = { d with updates := [d.updates.flatten] } := by
      unfold YjsDoc.gc_updates
      rw [if_pos]
      exact hk
    rw [hgc, get_encoded_state_eq_join]
    constructor
    · rfl
    · rfl

/-!
## Sync Protocol Engine (`yjs_server.py`, class `YjsServer`)

A websocket handle is a `Nat`. A send is a pair `(recipient, frame)`; the
handlers below return the mutated document together with the list of sends
they perform, in order.
-/

/-- Frames emitted by `YjsServer.send_sync_step2`: the `[SYNC, STEP2] + state`
frame when the encoded state is non-empty, nothing otherwise. -/
def send_sync_step2_frames (d : YjsDoc Nat) : List (List Nat) :=
  if d.get_encoded_state = [] then []
  else [[MESSAGE_SYNC, SYNC_STEP2] ++ d.get_encoded_state]

/-- `YjsServer.broadcast_update`: send `[SYNC, SYNC_UPDATE] + update` to every
client of the document other than the sender. -/
def broadcast_update_sends (sender : Nat) (update : List Nat) (d : YjsDoc Nat) :
    List (Nat × List Nat) :=
  (d.clients.filter (fun c => c ≠ sender)).map
    (fun c => (c, [MESSAGE_SYNC, SYNC_UPDATE] ++ update))

/-- `YjsServer.handle_sync_message`: dispatch on the sync sub-type byte and
return the mutated document plus the sends performed.  On `SYNC_UPDATE` with
non-empty data the update is applied, broadcast to the other clients, and the
log is garbage-collected with `keep_last=100` once the count exceeds 200. -/
def handle_sync_message (sender : Nat) (payload : List Nat) (d : YjsDoc Nat) :
    YjsDoc Nat × List (Nat × List Nat) :=
  match payload with
  | [] => (d, [])
  | syncType :: syncData =>
    if syncType = SYNC_STEP1 then
      (d, (send_sync_step2_frames d).map (fun m => (sender, m)))
    else if syncType = SYNC_STEP2 then
      (if syncData = [] then d else d.apply_update syncData, [])
    else if syncType = SYNC_UPDATE then
      if syncData = [] then (d, [])
      else
        let d1 := d.apply_update syncData
        let sends := broadcast_update_sends sender syncData d1
        let d2 := if d1.get_update_count > 200 then d1.gc_updates 100 else d1
        (d2, sends)
    else (d, [])

/-- 4-byte little-endian encoding, `struct.pack('<I', n)` (exact for
`n < 2^32`). -/
def le4 (n : Nat) : List Nat :=
  [n % 256, n / 256 % 256, n / 65536 % 256, n / 16777216 % 256]

/-- `YjsServer.broadcast_awareness_removal`: send
`[AWARENESS] + pack(removed_client_id) + b'\x00'` to every client of the
document (the departed connection was already discarded from the set). -/
def broadcast_awareness_removal_sends (d : YjsDoc Nat) (removed_client_id : Nat) :
    List (Nat × List Nat) :=
  d.clients.map (fun c => (c, [MESSAGE_AWARENESS] ++ le4 removed_client_id ++ [0]))

/-- `YjsServer.send_awareness_states`: one `[AWARENESS] + pack(id) + state`
frame per stored awareness entry, sent to the requesting connection. -/
def send_awareness_states_frames (d : YjsDoc Nat) : List (List Nat) :=
  d.awareness_states.map (fun p => [MESSAGE_AWARENESS] ++ le4 p.1 ++ p.2)

/-- The frames `YjsServer.handle_client` sends to a freshly connected client
before entering its receive loop: a `SYNC/STEP1` request, then the
`SYNC/STEP2` state frame when the state is non-empty, then the stored
awareness frames. -/
def yjs_connect_sends (d : YjsDoc Nat) : List (List Nat) :=
  [[MESSAGE_SYNC, SYNC_STEP1]] ++ send_sync_step2_frames d
    ++ send_awareness_states_frames d

/-- The `finally` cleanup of `YjsServer.handle_client`: discard the websocket
from the client set; if the client id has an awareness entry, delete it and
broadcast the awareness-removal frame to the remaining clients. -/
def disconnect_cleanup (ws client_id : Nat) (d : YjsDoc Nat) :
    YjsDoc Nat × List (Nat × List Nat) :=
  let d1 : YjsDoc Nat := { d with clients := d.clients.filter (fun c => c ≠ ws) }
  if d1.awareness_states.any (fun p => p.1 = client_id) then
    let d2 := d1.remove_awareness client_id
    (d2, broadcast_awareness_removal_sends d2 client_id)
  else (d1, [])

/-!
## FastAPI router (`app/routers/websocket.py`)

Here the broadcast set is `ConnectionManager.active_connections[doc_id]`
(websocket handles, modelled as `Nat`), while the document's own `clients`
field holds string ids; the update-count ceiling is 1000.
-/

/-- `ConnectionManager.broadcast`: send the message to every connection of the
document except `exclude` (send failures only evict the failed member). -/
def fastapi_broadcast_sends (conns : List Nat) (exclude : Nat) (message : List Nat) :
    List (Nat × List Nat) :=
  (conns.filter (fun c => c ≠ exclude)).map (fun c => (c, message))

/-- `websocket.py handle_sync_message`: `SYNC_STEP1` answers with the state
when non-empty; `SYNC_STEP2` does nothing (`pass`); `SYNC_UPDATE` applies the
payload, broadcasts it excluding the sender, and garbage-collects with the
default `keep_last=100` only once the count exceeds 1000. -/
def fastapi_handle_sync_message (ws : Nat) (conns : List Nat) (data : List Nat)
    (d : YjsDoc String) : YjsDoc String × List (Nat × List Nat) :=
  match data with
  | [] => (d, [])
  | syncType :: payload =>
    if syncType = SYNC_STEP1 then
      (d, if d.get_encoded_state = [] then []
          else [(ws, [MESSAGE_SYNC, SYNC_STEP2] ++ d.get_encoded_state)])
    else if syncType = SYNC_STEP2 then
      (d, [])
    else if syncType = SYNC_UPDATE then
      let d1 := d.apply_update payload
      let sends := fastapi_broadcast_sends conns ws ([MESSAGE_SYNC, SYNC_UPDATE] ++ payload)
      let d2 := if d1.get_update_count > 1000 then d1.gc_updates 100 else d1
      (d2, sends)
    else (d, [])

/-- The frames `yjs_websocket` sends to a freshly connected client before its
receive loop (websocket.py lines 88-97): only the `SYNC/STEP2` state frame
when the state is non-empty — no `SYNC/STEP1` is ever sent, although the
comment above the block reads "Send initial sync message (SYNC_STEP1)". -/
def fastapi_connect_sends (d : YjsDoc String) : List (List Nat) :=
  if d.get_encoded_state = [] then []
  else [[MESSAGE_SYNC, SYNC_STEP2] ++ d.get_encoded_state]

-- Helper lemmas about the handlers

theorem apply_update_count {C : Type} (d : YjsDoc C) (u : List Nat) :
    (d.apply_update u).get_update_count = d.get_update_count + 1 := by
  simp [YjsDoc.apply_update, YjsDoc.get_update_count]

theorem apply_update_encoded {C : Type} (d : YjsDoc C) (u : List Nat) :
    (d.apply_update u).get_encoded_state = d.get_encoded_state ++ u := by
  rw [get_encoded_state_eq_join, get_encoded_state_eq_join]
  simp [YjsDoc.apply_update]

theorem gc_count_of_gt {C : Type} (d : YjsDoc C) (k : Nat)
    (h : d.get_update_count > k) : (d.gc_updates k).get_update_count = 1 := by
  unfold YjsDoc.gc_updates
  rw [if_pos (show d.updates.length > k from h)]
  rfl

theorem handle_sync_update_eq (sender : Nat) (data : List Nat) (d : YjsDoc Nat)
    (h : data ≠ []) :
    handle_sync_message sender (SYNC_UPDATE :: data) d =
      ((if (d.apply_update data).get_update_count > 200
        then (d.apply_update data).gc_updates 100 else d.apply_update data),
       broadcast_update_sends sender data (d.apply_update data)) := by
  simp [handle_sync_message, SYNC_UPDATE, SYNC_STEP1, SYNC_STEP2, h]

theorem fastapi_sync_update_eq (ws : Nat) (conns : List Nat) (data : List Nat)
    (fd : YjsDoc String) :
    fastapi_handle_sync_message ws conns (SYNC_UPDATE :: data) fd =
      ((if (fd.apply_update data).get_update_count > 1000
        then (fd.apply_update data).gc_updates 100 else fd.apply_update data),
       fastapi_broadcast_sends conns ws ([MESSAGE_SYNC, SYNC_UPDATE] ++ data)) := by
  simp [fastapi_handle_sync_message, SYNC_UPDATE, SYNC_STEP1, SYNC_STEP2]

/-- **C2.** An inbound `SYNC/UPDATE` with non-empty payload from connection A
is relayed to every other member of the document as a `SYNC/UPDATE` frame
carrying the identical payload bytes, and never back to A — both in the
standalone `yjs_server` engine and in the FastAPI router. -/
theorem C2_update_fanout (A : Nat) (data : List Nat) (d : YjsDoc Nat)
    (conns : List Nat) (fd : YjsDoc String) (hdata : data ≠ []) :
    (∀ B ∈ d.clients, B ≠ A →
        (B, [MESSAGE_SYNC, SYNC_UPDATE] ++ data) ∈
          (handle_sync_message A (SYNC_UPDATE :: data) d).2)
    ∧ (∀ m, (A, m) ∉ (handle_sync_message A (SYNC_UPDATE :: data) d).2)
    ∧ (∀ B ∈ conns, B ≠ A →
        (B, [MESSAGE_SYNC, SYNC_UPDATE] ++ data) ∈
          (fastapi_handle_sync_message A conns (SYNC_UPDATE :: data) fd).2)
    ∧ (∀ m, (A, m) ∉ (fastapi_handle_sync_message A conns (SYNC_UPDATE :: data) fd).2) := by
  rw [handle_sync_update_eq A data d hdata, fastapi_sync_update_eq A conns data fd]
  refine ⟨?_, ?_, ?_, ?_⟩
  · intro B hB hBA
    simp only [broadcast_update_sends, List.mem_map, List.mem_filter]
    exact ⟨B, ⟨by simpa [YjsDoc.apply_update] using hB, by simpa using hBA⟩, rfl⟩
  · intro m hm
    simp only [broadcast_update_sends, List.mem_map, List.mem_filter] at hm
    obtain ⟨c, ⟨_, hc⟩, heq⟩ := hm
    have : c = A := congrArg Prod.fst heq
    simp [this] at hc
  · intro B hB hBA
    simp only [fastapi_broadcast_sends, List.mem_map, List.mem_filter]
    exact ⟨B, ⟨hB, by simpa using hBA⟩, rfl⟩
  · intro m hm
    simp only [fastapi_broadcast_sends, List.mem_map, List.mem_filter] at hm
    obtain ⟨c, ⟨_, hc⟩, heq⟩ := hm
    have : c = A := congrArg Prod.fst heq
    simp [this] at hc

/-- **C2 witness.** Concrete instance: sender 1, members {1, 2}, payload [5]. -/
theorem C2_update_fanout_witness :
    ([5] : List Nat) ≠ []
    ∧ ((∀ B ∈ ({ freshDoc Nat "d" with clients := [1, 2] } : YjsDoc Nat).clients,
          B ≠ 1 →
          (B, [MESSAGE_SYNC, SYNC_UPDATE] ++ [5]) ∈
            (handle_sync_message 1 (SYNC_UPDATE :: [5])
              { freshDoc Nat "d" with clients := [1, 2] }).2)
       ∧ (∀ m, (1, m) ∉
            (handle_sync_message 1 (SYNC_UPDATE :: [5])
              { freshDoc Nat "d" with clients := [1, 2] }).2)
       ∧ (∀ B ∈ [1, 2], B ≠ 1 →
          (B, [MESSAGE_SYNC, SYNC_UPDATE] ++ [5]) ∈
            (fastapi_handle_sync_message 1 [1, 2] (SYNC_UPDATE :: [5])
              (freshDoc String "d")).2)
       ∧ (∀ m, (1, m) ∉
            (fastapi_handle_sync_message 1 [1, 2] (SYNC_UPDATE :: [5])
              (freshDoc String "d")).2)) :=
  ⟨by decide,
   C2_update_fanout 1 [5] { freshDoc Nat "d" with clients := [1, 2] } [1, 2]
     (freshDoc String "d") (by decide)⟩

/-- **C3.** The FastAPI `yjs_websocket` endpoint never sends the initial
`SYNC/STEP1` frame, contrary to the claim (and to the comment in its own
source, "Send initial sync message (SYNC_STEP1)"): on a fresh (empty)
document it sends nothing at all, and on a non-empty document it sends only
the `SYNC/STEP2` state frame; the standalone `yjs_server` engine does send
`SYNC/STEP1` first. -/
theorem C3_fastapi_missing_step1 :
    fastapi_connect_sends (freshDoc String "doc-1") = []
    ∧ fastapi_connect_sends (YjsDoc.apply_update (freshDoc String "doc-1") [1, 2])
        = [[MESSAGE_SYNC, SYNC_STEP2, 1, 2]]
    ∧ yjs_connect_sends (freshDoc Nat "doc-1") = [[MESSAGE_SYNC, SYNC_STEP1]] := by
  refine ⟨rfl, ?_, rfl⟩
  rfl

theorem handle_sync_update_doc (sender : Nat) (data : List Nat) (d : YjsDoc Nat)
    (h : data ≠ []) :
    (handle_sync_message sender (SYNC_UPDATE :: data) d).1 =
      if (d.apply_update data).get_update_count > 200
      then (d.apply_update data).gc_updates 100 else d.apply_update data := by
  rw [handle_sync_update_eq sender data d h]

theorem fastapi_sync_update_doc (ws : Nat) (conns : List Nat) (data : List Nat)
    (fd : YjsDoc String) :
    (fastapi_handle_sync_message ws conns (SYNC_UPDATE :: data) fd).1 =
      if (fd.apply_update data).get_update_count > 1000
      then (fd.apply_update data).gc_updates 100 else fd.apply_update data := by
  rw [fastapi_sync_update_eq ws conns data fd]

theorem handle_sync_step2_eq (sender : Nat) (data : List Nat) (d : YjsDoc Nat)
    (h : data ≠ []) :
    handle_sync_message sender (SYNC_STEP2 :: data) d = (d.apply_update data, []) := by
  simp [handle_sync_message, SYNC_STEP2, SYNC_STEP1, SYNC_UPDATE, h]

theorem fastapi_sync_step2_eq (ws : Nat) (conns : List Nat) (data : List Nat)
    (fd : YjsDoc String) :
    fastapi_handle_sync_message ws conns (SYNC_STEP2 :: data) fd = (fd, []) := by
  simp [fastapi_handle_sync_message, SYNC_STEP2, SYNC_STEP1, SYNC_UPDATE]

/-- **C4 counterexample.** In the FastAPI router an inbound `SYNC/STEP2`
frame is ignored (`pass`): on a document whose state is `[1, 2]`, a `STEP2`
with payload `[3]` leaves the encoded state at `[1, 2]`, not `[1, 2, 3]` as
the claim requires. -/
theorem C4_counterexample :
    YjsDoc.get_encoded_state
        (fastapi_handle_sync_message 7 [] (SYNC_STEP2 :: [3])
          (YjsDoc.apply_update (freshDoc String "doc-1") [1, 2])).1 = [1, 2]
    ∧ YjsDoc.get_encoded_state
        (fastapi_handle_sync_message 7 [] (SYNC_STEP2 :: [3])
          (YjsDoc.apply_update (freshDoc String "doc-1") [1, 2])).1 ≠ [1, 2, 3] := by
  refine ⟨rfl, by decide⟩

/-- **C4 (amended).** In the standalone `yjs_server` engine an inbound
`SYNC/STEP2` with non-empty payload is appended to the update log, so the
encoded state afterwards is the previous state concatenated with the
payload; the FastAPI router instead ignores inbound `STEP2` entirely,
leaving the document unchanged. -/
theorem C4_step2_append (sender : Nat) (data : List Nat) (d : YjsDoc Nat)
    (ws : Nat) (conns : List Nat) (fd : YjsDoc String) (h : data ≠ []) :
    (handle_sync_message sender (SYNC_STEP2 :: data) d).1.get_encoded_state
        = d.get_encoded_state ++ data
    ∧ (fastapi_handle_sync_message ws conns (SYNC_STEP2 :: data) fd).1 = fd := by
  rw [handle_sync_step2_eq sender data d h, fastapi_sync_step2_eq]
  exact ⟨apply_update_encoded d data, rfl⟩

/-- **C4 witness.** Concrete instance of the amended claim. -/
theorem C4_step2_append_witness :
    ([3] : List Nat) ≠ []
    ∧ ((handle_sync_message 1 (SYNC_STEP2 :: [3])
          (YjsDoc.apply_update (freshDoc Nat "d") [1, 2])).1.get_encoded_state
        = (YjsDoc.apply_update (freshDoc Nat "d") [1, 2]).get_encoded_state ++ [3]
       ∧ (fastapi_handle_sync_message 1 [] (SYNC_STEP2 :: [3])
            (freshDoc String "d")).1 = freshDoc String "d") :=
  ⟨by decide,
   C4_step2_append 1 [3] (YjsDoc.apply_update (freshDoc Nat "d") [1, 2]) 1 []
     (freshDoc String "d") (by decide)⟩

/-- **C5 counterexample.** The FastAPI router does not use the ceiling 200:
on a document holding 200 updates, an applied `SYNC/UPDATE` takes the count
to 201 (> 200) but no garbage collection happens — the count stays 201
instead of compacting to 1, because this entry point only collects once the
count exceeds 1000. -/
theorem C5_counterexample :
    YjsDoc.get_update_count
        (fastapi_handle_sync_message 7 [] (SYNC_UPDATE :: [9])
          { freshDoc String "doc-1" with updates := List.replicate 200 [0] }).1 = 201
    ∧ YjsDoc.get_update_count
        (fastapi_handle_sync_message 7 [] (SYNC_UPDATE :: [9])
          { freshDoc String "doc-1" with updates := List.replicate 200 [0] }).1 ≠ 1 := by
  have h200 : ({ freshDoc String "doc-1" with
      updates := List.replicate 200 [0] } : YjsDoc String).get_update_count = 200 :=
    List.length_replicate 200 [0]
  have h201 : YjsDoc.get_update_count
      (fastapi_handle_sync_message 7 [] (SYNC_UPDATE :: [9])
        { freshDoc String "doc-1" with updates := List.replicate 200 [0] }).1 = 201 := by
    rw [fastapi_sync_update_doc]
    have hcond : ¬ (({ freshDoc String "doc-1" with
        updates := List.replicate 200 [0] } : YjsDoc String).apply_update
          [9]).get_update_count > 1000 := by
      rw [apply_update_count, h200]
      omega
    rw [if_neg hcond, apply_update_count, h200]
  refine ⟨h201, ?_⟩
  rw [h201]
  omega

/-- **C5 (amended).** After an applied `SYNC/UPDATE`, the standalone
`yjs_server` engine garbage-collects exactly when the update count exceeds
200, compacting the log to 1 merged blob; the FastAPI entry point uses a
different ceiling, collecting exactly when the count exceeds 1000 — the two
entry points do not share one consistent ceiling. -/
theorem C5_gc_policy (sender : Nat) (data : List Nat) (d : YjsDoc Nat)
    (ws : Nat) (conns : List Nat) (fd : YjsDoc String) (h : data ≠ []) :
    (d.get_update_count + 1 > 200 →
        (handle_sync_message sender (SYNC_UPDATE :: data) d).1.get_update_count = 1)
    ∧ (d.get_update_count + 1 ≤ 200 →
        (handle_sync_message sender (SYNC_UPDATE :: data) d).1.get_update_count
          = d.get_update_count + 1)
    ∧ (fd.get_update_count + 1 ≤ 1000 →
        (fastapi_handle_sync_message ws conns (SYNC_UPDATE :: data) fd).1.get_update_count
          = fd.get_update_count + 1)
    ∧ (fd.get_update_count + 1 > 1000 →
        (fastapi_handle_sync_message ws conns (SYNC_UPDATE :: data) fd).1.get_update_count
          = 1) := by
  rw [handle_sync_update_doc sender data d h, fastapi_sync_update_doc ws conns data fd]
  refine ⟨?_, ?_, ?_, ?_⟩
  · intro hc
    have hcond : (d.apply_update data).get_update_count > 200 := by
      rw [apply_update_count]; exact hc
    rw [if_pos hcond]
    exact gc_count_of_gt _ _ (by rw [apply_update_count]; omega)
  · intro hc
    have hcond : ¬ (d.apply_update data).get_update_count > 200 := by
      rw [apply_update_count]; omega
    rw [if_neg hcond, apply_update_count]
  · intro hc
    have hcond : ¬ (fd.apply_update data).get_update_count > 1000 := by
      rw [apply_update_count]; omega
    rw [if_neg hcond, apply_update_count]
  · intro hc
    have hcond : (fd.apply_update data).get_update_count > 1000 := by
      rw [apply_update_count]; exact hc
    rw [if_pos hcond]
    exact gc_count_of_gt _ _ (by rw [apply_update_count]; omega)

/-- **C5 witness.** Concrete instance: a single update on fresh documents
(the sub-ceiling branches are exercised, the over-ceiling branches hold
vacuously). -/
theorem C5_gc_policy_witness :
    ([9] : List Nat) ≠ []
    ∧ (((freshDoc Nat "d").get_update_count + 1 > 200 →
          (handle_sync_message 1 (SYNC_UPDATE :: [9])
            (freshDoc Nat "d")).1.get_update_count = 1)
       ∧ ((freshDoc Nat "d").get_update_count + 1 ≤ 200 →
          (handle_sync_message 1 (SYNC_UPDATE :: [9])
            (freshDoc Nat "d")).1.get_update_count
            = (freshDoc Nat "d").get_update_count + 1)
       ∧ ((freshDoc String "d").get_update_count + 1 ≤ 1000 →
          (fastapi_handle_sync_message 1 [] (SYNC_UPDATE :: [9])
            (freshDoc String "d")).1.get_update_count
            = (freshDoc String "d").get_update_count + 1)
       ∧ ((freshDoc String "d").get_update_count + 1 > 1000 →
          (fastapi_handle_sync_message 1 [] (SYNC_UPDATE :: [9])
            (freshDoc String "d")).1.get_update_count = 1)) :=
  ⟨by decide, C5_gc_policy 1 [9] (freshDoc Nat "d") 1 [] (freshDoc String "d") (by decide)⟩

/-!
## Session identity assignment
-/

/-- The id-assignment state of `YjsServer`: `self.next_client_id = 1`. -/
structure YjsServerState where
  next_client_id : Nat
deriving Repr

/-- `YjsServer.__init__` sets `next_client_id = 1`. -/
def initialServerState : YjsServerState := { next_client_id := 1 }

/-- The id-assignment step of `YjsServer.handle_client` (lines 156-159):
`client_id = self.next_client_id; self.next_client_id += 1`. -/
def handle_client_connect (s : YjsServerState) : Nat × YjsServerState :=
  (s.next_client_id, { next_client_id := s.next_client_id + 1 })

/-- The server state after `n` accepted connections. -/
def serverAfter (s : YjsServerState) : Nat → YjsServerState
  | 0 => s
  | n + 1 => (handle_client_connect (serverAfter s n)).2

/-- The identity assigned to the `n`-th connection (0-based) of a run
starting from state `s`. -/
def assignedId (s : YjsServerState) (n : Nat) : Nat :=
  (handle_client_connect (serverAfter s n)).1

/-- The FastAPI identity assignment (websocket.py line 85):
`client_id = f"client-{id(websocket)}"`, a pure function of the CPython
object id (memory address) of the websocket object. -/
def fastapi_client_id (addr : Nat) : String :=
  "client-" ++ toString addr

/-- The identity the FastAPI endpoint assigns to the `n`-th connection of a
run in which `addrs` lists the object ids of the successive websocket
objects.  CPython guarantees an object id unique only among simultaneously
live objects; once a websocket is freed its id may be reassigned, so a run
with repeated addresses is possible. -/
def fastapi_id_of_run (addrs : List Nat) (n : Nat) : String :=
  fastapi_client_id (addrs.getD n 0)

theorem assignedId_eq (s : YjsServerState) (n : Nat) :
    assignedId s n = s.next_client_id + n := by
  induction n with
  | zero => rfl
  | succ m ih =>
      have hstate : (serverAfter s (m + 1)).next_client_id
          = s.next_client_id + (m + 1) := by
        have : (serverAfter s (m + 1)).next_client_id = assignedId s m + 1 := rfl
        rw [this, ih]
        omega
      unfold assignedId handle_client_connect
      rw [hstate]

/-- **C6 counterexample.** In the FastAPI endpoint the identity is derived
from the websocket object's CPython id; in a run of two successive
connections where the first websocket object is freed and its id 140312 is
reused for the second, both connections receive the identical identity
`"client-140312"` — neither strictly greater than nor distinct from the
earlier one. -/
theorem C6_counterexample :
    fastapi_id_of_run [140312, 140312] 0 = fastapi_id_of_run [140312, 140312] 1
    ∧ fastapi_id_of_run [140312, 140312] 0 = "client-140312" := by
  exact ⟨rfl, rfl⟩

/-- **C6 (amended).** The standalone `yjs_server` session manager does
assign fresh, process-unique, monotonically increasing identities: in any
run, the identity of a later connection is strictly greater than (hence
distinct from) that of an earlier one.  The FastAPI endpoint instead derives
its identity from `id(websocket)`, which carries no such guarantee. -/
theorem C6_session_ids (s : YjsServerState) (i j : Nat) (hij : i < j) :
    assignedId s i < assignedId s j ∧ assignedId s i ≠ assignedId s j := by
  rw [assignedId_eq, assignedId_eq]
  omega

/-- **C6 witness.** The first two connections of a fresh server get ids 1
and 2. -/
theorem C6_session_ids_witness :
    (0 : Nat) < 1
    ∧ (assignedId initialServerState 0 < assignedId initialServerState 1
       ∧ assignedId initialServerState 0 ≠ assignedId initialServerState 1) :=
  ⟨by decide, C6_session_ids initialServerState 0 1 (by decide)⟩

/-- **C7.** When a connection that has an awareness entry disconnects, the
`finally` block of `YjsServer.handle_client` deletes that entry and sends to
every remaining member of the document an `AWARENESS` frame consisting of
the awareness type byte, the departed connection's 4-byte little-endian
identity, and the single-zero-byte removal sentinel. -/
theorem C7_awareness_removal (ws client_id : Nat) (d : YjsDoc Nat)
    (hentry : d.awareness_states.any (fun p => p.1 = client_id) = true) :
    (∀ p ∈ (disconnect_cleanup ws client_id d).1.awareness_states,
        p.1 ≠ client_id)
    ∧ (∀ m ∈ d.clients.filter (fun c => c ≠ ws),
        (m, [MESSAGE_AWARENESS] ++ le4 client_id ++ [0]) ∈
          (disconnect_cleanup ws client_id d).2) := by
  unfold disconnect_cleanup
  rw [if_pos hentry]
  constructor
  · intro p hp
    simp only [YjsDoc.remove_awareness, List.mem_filter] at hp
    simpa using hp.2
  · intro m hm
    simp only [broadcast_awareness_removal_sends, List.mem_map]
    refine ⟨m, ?_, rfl⟩
    simpa [YjsDoc.remove_awareness] using hm

/-- A concrete document used to witness C7: awareness entry for identity 5,
members 7 and 9. -/
def exampleDoc7 : YjsDoc Nat :=
  { freshDoc Nat "d" with awareness_states := [(5, [1])], clients := [7, 9] }

/-- **C7 witness.** Document with awareness entry for id 5 and members
{7, 9}; connection 7 (identity 5) disconnects; remaining member 9 receives
the removal frame `[1, 5, 0, 0, 0, 0]`. -/
theorem C7_awareness_removal_witness :
    (exampleDoc7.awareness_states.any (fun p => p.1 = 5) = true)
    ∧ ((∀ p ∈ (disconnect_cleanup 7 5 exampleDoc7).1.awareness_states, p.1 ≠ 5)
       ∧ (∀ m ∈ exampleDoc7.clients.filter (fun c => c ≠ 7),
          (m, [MESSAGE_AWARENESS] ++ le4 5 ++ [0]) ∈
            (disconnect_cleanup 7 5 exampleDoc7).2)) :=
  ⟨by decide, C7_awareness_removal 7 5 exampleDoc7 (by decide)⟩

/-!
## Document registry cleanup (`YjsDocumentManager`, yjs_manager.py)
-/

/-- The idle grace delay of `_cleanup_empty_document`: `asyncio.sleep(300)`
seconds. -/
def cleanup_delay_seconds : Nat := 300

/-- The fire-time body of `YjsDocumentManager._cleanup_empty_document`,
running after the sleep: if the document is still present and its client set
is still empty, delete it from `_documents`; otherwise leave the table
unchanged. -/
def cleanup_fire (docs : List (String × YjsDoc String)) (doc_id : String) :
    List (String × YjsDoc String) :=
  match docs.find? (fun p => p.1 = doc_id) with
  | some p =>
      if p.2.clients = [] then docs.filter (fun q => q.1 ≠ doc_id) else docs
  | none => docs

/-- `YjsDocumentManager.get_document`: look the document up, creating a fresh
one when absent. -/
def get_document (docs : List (String × YjsDoc String)) (doc_id : String) :
    List (String × YjsDoc String) × YjsDoc String :=
  match docs.find? (fun p => p.1 = doc_id) with
  | some p => (docs, p.2)
  | none => (docs ++ [(doc_id, freshDoc String doc_id)], freshDoc String doc_id)

/-- **C8.** The idle cleanup waits the 5-minute (300-second) grace window and
re-validates the member set at fire time: if any member rejoined (client set
non-empty at fire time) the deletion is a no-op and a later lookup still
returns the very same document with its previous updates and awareness; only
if the member set is still empty is the document removed. -/
theorem C8_idle_cleanup (docs : List (String × YjsDoc String)) (doc_id : String)
    (d : YjsDoc String)
    (hfound : docs.find? (fun p => p.1 = doc_id) = some (doc_id, d)) :
    cleanup_delay_seconds = 5 * 60
    ∧ (d.clients ≠ [] → (cleanup_fire docs doc_id = docs
        ∧ (get_document (cleanup_fire docs doc_id) doc_id).2 = d))
    ∧ (d.clients = [] → ∀ q ∈ cleanup_fire docs doc_id, q.1 ≠ doc_id) := by
  refine ⟨rfl, ?_, ?_⟩
  · intro hcl
    have hfire : cleanup_fire docs doc_id = docs := by
      unfold cleanup_fire
      rw [hfound]
      simp [hcl]
    refine ⟨hfire, ?_⟩
    rw [hfire]
    unfold get_document
    rw [hfound]
  · intro hcl q hq
    unfold cleanup_fire at hq
    rw [hfound] at hq
    simp only [hcl, if_true] at hq
    have := List.of_mem_filter hq
    simpa using this

/-- A concrete registry used to witness C8: one document with one member. -/
def exampleDoc8 : YjsDoc String :=
  { freshDoc String "a" with clients := ["c1"] }

/-- **C8 witness.** A registry holding document `"a"` with member `"c1"`:
the fire-time check observes the non-empty member set, the table is
unchanged, and the lookup still returns the same document. -/
theorem C8_idle_cleanup_witness :
    ([("a", exampleDoc8)].find? (fun p => p.1 = "a") = some ("a", exampleDoc8))
    ∧ (cleanup_delay_seconds = 5 * 60
       ∧ (exampleDoc8.clients ≠ [] →
            (cleanup_fire [("a", exampleDoc8)] "a" = [("a", exampleDoc8)]
             ∧ (get_document (cleanup_fire [("a", exampleDoc8)] "a") "a").2
                 = exampleDoc8))
       ∧ (exampleDoc8.clients = [] →
            ∀ q ∈ cleanup_fire [("a", exampleDoc8)] "a", q.1 ≠ "a")) :=
  ⟨rfl, C8_idle_cleanup [("a", exampleDoc8)] "a" exampleDoc8 rfl⟩

/-!
## Debounced analysis scheduler (`handle_editor_edit`, websocket.py)

`_debounce_tasks` maps the key `f"{document_id}_{id(websocket)}"` to the one
outstanding `asyncio` task.  A task object is modelled by the generation
number it was created with, so that a cancelled (replaced) task can be told
apart from the live one when its sleep would have expired.
-/

/-- Scheduler state: the outstanding tasks (key, generation, captured
content), the analysis invocations performed so far (key, content), and the
next generation number. -/
structure DebounceState where
  tasks : List (String × Nat × String)
  invocations : List (String × String)
  next_gen : Nat
deriving Repr

/-- No tasks scheduled, no invocations performed. -/
def initialDebounce : DebounceState :=
  { tasks := [], invocations := [], next_gen := 0 }

/-- Scheduler events: an accepted edit for a key with its content, or the
sleep of the task of generation `gen` for `key` expiring. -/
inductive EditorEvent where
  | edit (key content : String)
  | fire (key : String) (gen : Nat)
deriving Repr

/-- One scheduler step.  `edit` is the tail of `handle_editor_edit`: cancel
any outstanding task for the key and store a fresh task capturing this
edit's content.  `fire key gen` is the `debounced_analysis` body of the task
of generation `gen` reaching the end of its sleep: it invokes the analysis
with its captured content only if it is still the stored task for the key (a
cancelled task is interrupted inside the sleep and invokes nothing). -/
def debounceStep (s : DebounceState) : EditorEvent → DebounceState
  | EditorEvent.edit key content =>
      { s with
        tasks := s.tasks.filter (fun t => t.1 ≠ key) ++ [(key, s.next_gen, content)],
        next_gen := s.next_gen + 1 }
  | EditorEvent.fire key gen =>
      match s.tasks.find? (fun t => t.1 = key ∧ t.2.1 = gen) with
      | some t =>
          { s with
            tasks := s.tasks.filter (fun u => u.1 ≠ key),
            invocations := s.invocations ++ [(key, t.2.2)] }
      | none => s

/-- Run a sequence of scheduler events. -/
def debounceRun (s : DebounceState) (es : List EditorEvent) : DebounceState :=
  es.foldl debounceStep s

/-- **C9.** Two edits from the same connection within the debounce window:
the first edit's timer is cancelled by the second, so of the two timer
expiries only the second one invokes the analysis — exactly one invocation,
carrying the later edit's content.  Moreover every step preserves the
invariant that at most one task is stored per (document, connection) key. -/
theorem C9_debounce (k c1 c2 : String) :
    (debounceRun initialDebounce
        [EditorEvent.edit k c1, EditorEvent.edit k c2,
         EditorEvent.fire k 0, EditorEvent.fire k 1]).invocations = [(k, c2)]
    ∧ (∀ (s : DebounceState) (e : EditorEvent),
        (s.tasks.Pairwise fun a b => a.1 ≠ b.1) →
        ((debounceStep s e).tasks.Pairwise fun a b => a.1 ≠ b.1)) := by
  constructor
  · simp [debounceRun, debounceStep, initialDebounce, List.find?, List.filter]
  · intro s e hp
    cases e with
    | edit key content =>
        simp only [debounceStep]
        rw [List.pairwise_append]
        refine ⟨hp.filter _, List.pairwise_singleton _ _, ?_⟩
        intro a ha b hb
        simp only [List.mem_filter, decide_not] at ha
        simp only [List.mem_singleton] at hb
        subst hb
        simpa using ha.2
    | fire key gen =>
        simp only [debounceStep]
        cases hfind : s.tasks.find? (fun t => t.1 = key ∧ t.2.1 = gen) with
        | some t => exact hp.filter _
        | none => exact hp

/-- **C10.** `remove_awareness` for a client id that has no entry in the
document's awareness table is a total no-op: the document — in particular
the awareness table — is returned unchanged (and, being a total function of
the state, the operation cannot fail). -/
theorem C10_remove_awareness_idempotent (d : YjsDoc String) (c : Nat)
    (h : ∀ p ∈ d.awareness_states, p.1 ≠ c) :
    d.remove_awareness c = d := by
  unfold YjsDoc.remove_awareness
  have hfilter : d.awareness_states.filter (fun p => p.1 ≠ c)
      = d.awareness_states := by
    apply List.filter_eq_self.mpr
    intro p hp
    simpa using h p hp
  rw [hfilter]

/-- A concrete document used to witness C10: one awareness entry, for id 1. -/
def exampleDoc10 : YjsDoc String :=
  { freshDoc String "d" with awareness_states := [(1, [2])] }

/-- **C10 witness.** Removing the absent id 3 leaves the document unchanged. -/
theorem C10_remove_awareness_idempotent_witness :
    (∀ p ∈ exampleDoc10.awareness_states, p.1 ≠ 3)
    ∧ exampleDoc10.remove_awareness 3 = exampleDoc10 :=
  ⟨by decide, C10_remove_awareness_idempotent exampleDoc10 3 (by decide)⟩
